import Mathlib

/-!
Shallow embedding of the per-group game logic of the `astrbot_plugin_rg2`
revolver-roulette plugin (`main.py` and `tools/revolver_tools.py`), together
with theorems settling the specification claims.

The plugin keeps three per-group dictionaries (`group_games`, `timeout_tasks`,
`ai_trigger_queue`).  All game operations touch the entries of a single group
only, so the embedding models the slice of the state belonging to one group
(`GroupState`) plus the global trigger queue (an association list mirroring the
Python dict).  External randomness (`random.sample`, `random.randint`) is
passed in as explicit arguments; the properties Python's `random` guarantees
for those values (distinct, in-range positions; an integer in `[1,6]`) appear
as hypotheses of the theorems.  External API calls (role lookup, mute) are
modelled by their results.
-/

namespace RG2

/-- `CHAMBER_COUNT = 6` from `main.py`. -/
def CHAMBER_COUNT : Nat := 6

/-- One per-group game: the `{"chambers": ..., "current": ...}` dict stored in
`self.group_games[group_id]` (the `start_time` field is used only for
diagnostics and is omitted). -/
structure Game where
  chambers : List Bool
  current : Nat
deriving Repr, DecidableEq

/-- Outcome of pulling the trigger once: `chambers[current]` live or not. -/
inductive FireOutcome where
  | Hit
  | Miss
deriving Repr, DecidableEq

/-- The chamber read/clear/advance step of `shoot` (main.py lines 529-576):
reads `chambers[current]`; if live, clears the slot and advances the cursor;
otherwise leaves the chambers unchanged and advances the cursor.  The cursor
always advances to `(current + 1) % CHAMBER_COUNT`. -/
def Game.fire (g : Game) : FireOutcome × Game :=
  if g.chambers.getD g.current false then
    (.Hit, { chambers := g.chambers.set g.current false,
             current := (g.current + 1) % CHAMBER_COUNT })
  else
    (.Miss, { g with current := (g.current + 1) % CHAMBER_COUNT })

/-- Iterated firing: the game after `n` consecutive trigger pulls. -/
def Game.fireMany (g : Game) : Nat → Game
  | 0 => g
  | n + 1 => ((g.fireMany n).fire).2

/-- The chamber positions read by `n` consecutive fires: the `i`-th fire reads
`chambers[current]` of the game reached after `i` fires. -/
def Game.visited (g : Game) (n : Nat) : List Nat :=
  (List.range n).map (fun i => (g.fireMany i).current)

/-- `_create_chambers` (main.py lines 265-279): start from six empty slots and
mark each sampled position live.  The list `sample` stands for the value of
`random.sample(range(CHAMBER_COUNT), bullet_count)`; the guard mirrors the
`if bullet_count > 0` check in the source. -/
def create_chambers (bullet_count : Nat) (sample : List Nat) : List Bool :=
  let chambers := List.replicate CHAMBER_COUNT false
  if bullet_count > 0 then
    sample.foldl (fun ch pos => ch.set pos true) chambers
  else
    chambers

/-- The slice of the plugin's per-group state for one group: the entry of
`self.group_games` (if any), the entry of `self.timeout_tasks` (if any,
identified by a handle number), and a counter allocating fresh handle numbers
for newly created timeout tasks. -/
structure GroupState where
  game : Option Game
  timeoutHandle : Option Nat
  nextHandle : Nat
deriving Repr, DecidableEq

/-- `_start_timeout` (main.py lines 785-833): cancels the existing timeout
task for the group (if any) and stores a freshly created one.  Cancellation is
modelled by replacement: a task whose handle is no longer the stored one can
never run its callback body (see `timeout_check`). -/
def start_timeout (s : GroupState) : GroupState :=
  { s with timeoutHandle := some s.nextHandle, nextHandle := s.nextHandle + 1 }

/-- The body of the `timeout_check` callback inside `_start_timeout`
(main.py lines 805-829), as observed when the task with handle `h` reaches the
end of its sleep: a cancelled or replaced task never runs its body (the
`asyncio.sleep` raises `CancelledError`), which is the guard
`s.timeoutHandle = some h`; the body itself deletes the game only if
`group_id in self.group_games` still holds, and otherwise mutates nothing. -/
def timeout_check (s : GroupState) (h : Nat) : GroupState :=
  if s.timeoutHandle = some h then
    match s.game with
    | some _ => { s with game := none }
    | none => s
  else
    s

/-- The whitespace characters Python's `str.strip()` / `str.split()` treat as
separators (restricted to the ones that occur in chat commands). -/
def isPySpace (c : Char) : Bool :=
  c = ' ' || c = '\t' || c = '\n' || c = '\r'

/-- Python `str.strip()`: drop leading and trailing whitespace. -/
def pyStrip (chars : List Char) : List Char :=
  ((chars.dropWhile isPySpace).reverse.dropWhile isPySpace).reverse

/-- Python `str.split()` with no argument: split on runs of whitespace,
dropping empty fragments. -/
def pySplit (chars : List Char) : List (List Char) :=
  (chars.splitOnP isPySpace).filter (fun part => part ≠ [])

/-- Python `int(token)` on an ASCII numeral token: an optional sign followed
by at least one decimal digit; anything else raises `ValueError` (`none`). -/
def pyInt (token : List Char) : Option Int :=
  let withSign : Int × List Char :=
    match token with
    | '-' :: rest => (-1, rest)
    | '+' :: rest => (1, rest)
    | chars => (1, chars)
  if withSign.2 ≠ [] ∧ withSign.2.all (fun c => c.isDigit) then
    some (withSign.1 *
      (withSign.2.foldl (fun acc c => acc * 10 + (c.toNat - 48)) (0 : Nat) : Nat))
  else
    none

/-- `_parse_bullet_count` (main.py lines 289-308): splits the stripped
message, parses `parts[1]` as an integer, and returns it only when
`1 <= count <= 6`; every other case (too few parts, unparsable token,
out-of-range value) returns `None`. -/
def parse_bullet_count (message : String) : Option Nat :=
  let parts := pySplit (pyStrip message.toList)
  if parts.length < 2 then none
  else
    match pyInt (parts.getD 1 []) with
    | some count =>
        if 1 ≤ count ∧ count ≤ (CHAMBER_COUNT : Int) then some count.toNat
        else none
    | none => none

/-- Reply of the `装填` (load) command, `load_bullets` (main.py lines 443-501). -/
inductive LoadReply where
  | inProgress
  | permissionDenied
  | loaded (count : Nat)
deriving Repr, DecidableEq

/-- `load_bullets` (main.py lines 443-501) for a group-chat event: refuses when
a game already exists; an explicitly parsed bullet count requires admin rights;
otherwise the random count (`random.randint(1, 6)`, passed as `randomCount`)
is used.  On success it stores a fresh game with cursor `0` and arms the
timeout.  `sample` stands for the `random.sample` draw used by
`_create_chambers` for the resolved count. -/
def load_bullets (s : GroupState) (message : String) (isAdmin : Bool)
    (randomCount : Nat) (sample : List Nat) : LoadReply × GroupState :=
  if s.game.isSome then (.inProgress, s)
  else
    match parse_bullet_count message with
    | some count =>
        if !isAdmin then (.permissionDenied, s)
        else
          let g : Game := { chambers := create_chambers count sample, current := 0 }
          (.loaded count, start_timeout { s with game := some g })
    | none =>
        let g : Game := { chambers := create_chambers randomCount sample, current := 0 }
        (.loaded randomCount, start_timeout { s with game := some g })

/-- Reply of the `开枪` (shoot) command: either no active game, or the fire
outcome together with whether this shot ended the game. -/
inductive ShootReply where
  | noActiveGame
  | fired (outcome : FireOutcome) (ended : Bool)
deriving Repr, DecidableEq

/-- `shoot` (main.py lines 503-596) for a group-chat event: with no game the
registry is untouched; otherwise the timeout is re-armed, the chamber step
runs (`Game.fire`), and when the remaining live count reaches zero the timeout
task is cancelled and popped and the game entry is deleted in the same
operation. -/
def shoot (s : GroupState) : ShootReply × GroupState :=
  match s.game with
  | none => (.noActiveGame, s)
  | some g =>
      let s1 := start_timeout s
      let fired := g.fire
      let remaining := fired.2.chambers.count true
      if remaining = 0 then
        (.fired fired.1 true, { s1 with game := none, timeoutHandle := none })
      else
        (.fired fired.1 false, { s1 with game := some fired.2 })

/-- Iterated `shoot`: the group state after `n` consecutive shoot commands. -/
def shootMany (s : GroupState) : Nat → GroupState
  | 0 => s
  | n + 1 => (shoot (shootMany s n)).2

/-- Reply of the `左轮 状态` (status) command. -/
inductive StatusReply where
  | noActiveGame
  | active (remaining : Nat) (chamberIndex : Nat) (currentLive : Bool)
deriving Repr, DecidableEq

/-- `game_status` (main.py lines 603-637) for a group-chat event: read-only;
reports the remaining live count, the current chamber and whether it is live,
or `NoActiveGame` when the group has no registry entry. -/
def game_status (s : GroupState) : StatusReply :=
  match s.game with
  | none => .noActiveGame
  | some g =>
      .active (g.chambers.count true) g.current (g.chambers.getD g.current false)

/-- Reply of `ai_start_game` (main.py lines 929-989). -/
inductive AiStartReply where
  | inProgress
  | permissionDenied
  | started (bullets : Nat)
deriving Repr, DecidableEq

/-- `ai_start_game` (main.py lines 929-989) for a group-chat event: refuses
when a game exists; an explicit in-range bullet count requires admin rights,
while a missing or out-of-range count falls back to the random count; on
success it stores a fresh game with cursor `0` and arms the timeout. -/
def ai_start_game (s : GroupState) (bullets : Option Nat) (isAdmin : Bool)
    (randomCount : Nat) (sample : List Nat) : AiStartReply × GroupState :=
  if s.game.isSome then (.inProgress, s)
  else
    let resolved : Nat :=
      match bullets with
      | some b => if 1 ≤ b ∧ b ≤ CHAMBER_COUNT then b else randomCount
      | none => randomCount
    let explicitInRange : Bool :=
      match bullets with
      | some b => decide (1 ≤ b ∧ b ≤ CHAMBER_COUNT)
      | none => false
    if explicitInRange ∧ !isAdmin then (.permissionDenied, s)
    else
      let g : Game := { chambers := create_chambers resolved sample, current := 0 }
      (.started resolved, start_timeout { s with game := some g })

/-- Reply of the legacy `StartRevolverGameTool.run`
(tools/revolver_tools.py lines 63-90). -/
inductive ToolStartReply where
  | notGroup
  | inProgress
  | started (bullets : Nat)
deriving Repr, DecidableEq

/-- Legacy `StartRevolverGameTool.run` (tools/revolver_tools.py lines 63-90):
requires a group id and no existing game; a missing or out-of-range `bullets`
argument is replaced by the random count; it then stores a fresh game with
cursor `0` in `self.plugin.group_games`.  The method performs no admin check
of any kind (it does not even receive the requester's admin status) and never
arms a timeout. -/
def startRevolverGameTool_run (s : GroupState) (groupId : Option Nat)
    (bullets : Option Nat) (randomCount : Nat) (sample : List Nat) :
    ToolStartReply × GroupState :=
  match groupId with
  | none => (.notGroup, s)
  | some _ =>
      if s.game.isSome then (.inProgress, s)
      else
        let resolved : Nat :=
          match bullets with
          | some b => if 1 ≤ b ∧ b ≤ CHAMBER_COUNT then b else randomCount
          | none => randomCount
        let g : Game := { chambers := create_chambers resolved sample, current := 0 }
        (.started resolved, { s with game := some g })

/-- Action stored in the deferred AI trigger queue. -/
inductive TriggerAction where
  | start
  | join
  | toStatus
deriving Repr, DecidableEq

/-- Entry of `self.ai_trigger_queue[unique_id]`: the `action` and `timestamp`
fields of the dict stored by `_register_ai_trigger` (the `event` field only
carries the context the action later runs against and is omitted). -/
structure TriggerData where
  action : TriggerAction
  timestamp : Nat
deriving Repr, DecidableEq

/-- The `self.ai_trigger_queue` dict, as an association list: at most one
entry per key, keyed by the `unique_id` string. -/
abbrev TriggerQueue := List (String × TriggerData)

/-- `_register_ai_trigger` (main.py lines 837-852): the dict assignment
`self.ai_trigger_queue[unique_id] = {...}`, which overwrites any existing
entry for the same key. -/
def register_ai_trigger (q : TriggerQueue) (uniqueId : String)
    (d : TriggerData) : TriggerQueue :=
  (uniqueId, d) :: q.filter (fun e => e.1 != uniqueId)

/-- `_execute_ai_trigger` (main.py lines 854-879): if the key is absent the
call returns immediately; otherwise `self.ai_trigger_queue.pop(unique_id)`
removes the entry and the popped action is executed.  The returned option is
the executed entry (or `none` for the no-op case). -/
def execute_ai_trigger (q : TriggerQueue) (uniqueId : String) :
    Option TriggerData × TriggerQueue :=
  match q.lookup uniqueId with
  | none => (none, q)
  | some d => (some d, q.filter (fun e => e.1 != uniqueId))

/-- `_on_decorating_result` (main.py lines 884-906): the post-response hook —
if the key is still queued it waits the configured delay and drains it via
`_execute_ai_trigger`. -/
def on_decorating_result (q : TriggerQueue) (uniqueId : String) :
    Option TriggerData × TriggerQueue :=
  if (q.lookup uniqueId).isSome then execute_ai_trigger q uniqueId
  else (none, q)

/-- `_on_message_sent` (main.py lines 908-925): the post-send backup hook —
if the key is still queued it drains it via `_execute_ai_trigger`. -/
def on_message_sent (q : TriggerQueue) (uniqueId : String) :
    Option TriggerData × TriggerQueue :=
  if (q.lookup uniqueId).isSome then execute_ai_trigger q uniqueId
  else (none, q)

/-- The role-lookup request issued by `_is_user_bannable`
(main.py lines 339-342): `get_group_member_info(group_id=..., user_id=...,
no_cache=True)` — a fresh, uncached lookup at call time. -/
structure MemberInfoRequest where
  group_id : Nat
  user_id : Nat
  no_cache : Bool
deriving Repr, DecidableEq

/-- The concrete request `_is_user_bannable` sends for a target user: the
source always passes `no_cache=True`. -/
def bannable_lookup_request (groupId userId : Nat) : MemberInfoRequest :=
  { group_id := groupId, user_id := userId, no_cache := true }

/-- `_is_user_bannable` (main.py lines 323-363): without a group id the user
is not bannable; with the member-info API available, the role returned by the
fresh lookup decides — `owner` and `admin` are not bannable, everything else
is; a missing API or a raising lookup falls back to `true` (bannable). -/
def is_user_bannable (groupId : Option Nat) (hasMemberInfoApi : Bool)
    (roleLookup : Except Unit String) : Bool :=
  match groupId with
  | none => false
  | some _ =>
      if hasMemberInfoApi then
        match roleLookup with
        | .ok role => !(role = "owner" || role = "admin")
        | .error _ => true
      else
        true

/-- Result of `_ban_user`: the returned duration (0 on failure or immunity)
and whether the external `set_group_ban` mute call was issued at all. -/
structure BanResult where
  duration : Nat
  muteCalled : Bool
deriving Repr, DecidableEq

/-- `_ban_user` (main.py lines 391-439): returns 0 without any mute call when
the group id is missing or `_is_user_bannable` reports the target immune
(owner/admin); otherwise draws `banDuration` (`random.randint(min_ban,
max_ban)`) and, if the `set_group_ban` API exists, issues the mute call —
returning the duration on success and 0 if the call raises.  Without the API
no call is issued and 0 is returned. -/
def ban_user (groupId : Option Nat) (hasMemberInfoApi : Bool)
    (roleLookup : Except Unit String) (hasBanApi : Bool) (banDuration : Nat)
    (banCallSucceeds : Bool) : BanResult :=
  match groupId with
  | none => { duration := 0, muteCalled := false }
  | some _ =>
      if !is_user_bannable groupId hasMemberInfoApi roleLookup then
        { duration := 0, muteCalled := false }
      else if hasBanApi then
        if banCallSucceeds then { duration := banDuration, muteCalled := true }
        else { duration := 0, muteCalled := true }
      else
        { duration := 0, muteCalled := false }

/-- Reply of the legacy `JoinRevolverGameTool.run` and
`CheckRevolverStatusTool.run` (tools/revolver_tools.py): either the
group-only refusal, the `❌ Failed to ...: {e}` string produced by the
`except` branch, or a normal game reply. -/
inductive LegacyToolReply where
  | notGroup
  | failure
  | noGame
  | gameText
deriving Repr, DecidableEq

/-- The attribute names resolvable on a `JoinRevolverGameTool` or
`CheckRevolverStatusTool` instance: `__init__` sets `name`, `description`,
`parameters` and `plugin`, and the classes (`FunctionTool`,
`BaseRevolverTool` and the tool class itself) define only the methods listed.
No class in the hierarchy defines `group_games`; that dict lives on the
plugin instance (`self.plugin.group_games`). -/
def legacyToolAttrNames : List String :=
  ["name", "description", "parameters", "plugin",
   "run", "_get_group_id", "_get_user_name"]

/-- Body of the `try` block of `JoinRevolverGameTool.run` after the
`self.group_games` lookup succeeds (tools/revolver_tools.py lines 118-172) —
unreachable in the source, see `joinRevolverGameTool_run`. -/
def joinToolGameLogic (s : GroupState) : LegacyToolReply × GroupState :=
  match s.game with
  | none => (.noGame, s)
  | some g =>
      let fired := g.fire
      if fired.2.chambers.count true = 0 then (.gameText, { s with game := none })
      else (.gameText, { s with game := some fired.2 })

/-- Legacy `JoinRevolverGameTool.run` (tools/revolver_tools.py lines
107-176): after the group-id check it evaluates `self.group_games.get(...)`,
but `group_games` is not an attribute of the tool instance or its classes
(see `legacyToolAttrNames`), so the lookup raises `AttributeError`, the
surrounding `except` catches it and the failure string is returned with no
state touched. -/
def joinRevolverGameTool_run (s : GroupState) (groupId : Option Nat) :
    LegacyToolReply × GroupState :=
  match groupId with
  | none => (.notGroup, s)
  | some _ =>
      if legacyToolAttrNames.contains "group_games" then joinToolGameLogic s
      else (.failure, s)

/-- Body of the `try` block of `CheckRevolverStatusTool.run` after the
`self.group_games` lookup succeeds (tools/revolver_tools.py lines 198-215) —
unreachable in the source, see `checkRevolverStatusTool_run`. -/
def checkToolGameLogic (s : GroupState) : LegacyToolReply × GroupState :=
  match s.game with
  | none => (.noGame, s)
  | some _ => (.gameText, s)

/-- Legacy `CheckRevolverStatusTool.run` (tools/revolver_tools.py lines
193-218): same shape as `joinRevolverGameTool_run` — the `self.group_games`
lookup raises `AttributeError` and the `except` branch returns the failure
string with no state touched. -/
def checkRevolverStatusTool_run (s : GroupState) (groupId : Option Nat) :
    LegacyToolReply × GroupState :=
  match groupId with
  | none => (.notGroup, s)
  | some _ =>
      if legacyToolAttrNames.contains "group_games" then checkToolGameLogic s
      else (.failure, s)

/-! ### Helper lemmas about `create_chambers` -/

theorem length_foldl_set (sample : List Nat) (init : List Bool) :
    (sample.foldl (fun ch pos => ch.set pos true) init).length = init.length := by
  induction sample generalizing init with
  | nil => rfl
  | cons p rest ih =>
      simp only [List.foldl_cons]
      rw [ih]
      exact List.length_set init p true

theorem getD_foldl_set (sample : List Nat) (init : List Bool) (i : Nat)
    (hi : i < init.length) :
    (sample.foldl (fun ch pos => ch.set pos true) init).getD i false
      = (sample.contains i || init.getD i false) := by
  induction sample generalizing init with
  | nil => simp
  | cons p rest ih =>
      simp only [List.foldl_cons]
      rw [ih (init.set p true) (by rw [List.length_set]; exact hi)]
      by_cases hpi : p = i
      · subst hpi
        simp [List.getD_eq_getElem?_getD, List.getElem?_set, hi]
      · simp only [List.getD_eq_getElem?_getD, List.getElem?_set, hpi, if_false]
        have : (List.contains (p :: rest) i) = (rest.contains i) := by
          simp [List.contains_cons, Ne.symm hpi, (by simpa using Ne.symm hpi : (i == p) = false)]
        rw [this]

theorem create_chambers_length (bc : Nat) (sample : List Nat) :
    (create_chambers bc sample).length = CHAMBER_COUNT := by
  unfold create_chambers
  by_cases h : bc > 0
  · simp only [h, if_true]
    rw [length_foldl_set]
    simp [CHAMBER_COUNT]
  · simp [h, CHAMBER_COUNT]

theorem create_chambers_getD (bc : Nat) (sample : List Nat) (i : Nat)
    (hbc : 0 < bc) (hi : i < CHAMBER_COUNT) :
    (create_chambers bc sample).getD i false = sample.contains i := by
  unfold create_chambers
  simp only [hbc, if_true]
  rw [getD_foldl_set sample _ i (by simpa [CHAMBER_COUNT] using hi)]
  simp [List.getD_eq_getElem?_getD, List.getElem?_replicate, hi,
    show i < 6 from by simpa [CHAMBER_COUNT] using hi]

theorem create_chambers_eq_map (bc : Nat) (sample : List Nat) (hbc : 0 < bc) :
    create_chambers bc sample
      = (List.range CHAMBER_COUNT).map (fun i => sample.contains i) := by
  apply List.ext_getElem
  · rw [create_chambers_length]
    simp
  · intro i h1 h2
    have hi : i < CHAMBER_COUNT := by
      simpa [create_chambers_length] using h1
    have := create_chambers_getD bc sample i hbc hi
    rw [List.getD_eq_getElem?_getD, List.getElem?_eq_getElem h1] at this
    simp only [Option.getD_some] at this
    simp [this, hi, CHAMBER_COUNT]

theorem create_chambers_count (bc : Nat) (sample : List Nat) (hbc : 0 < bc)
    (hnd : sample.Nodup) (hlt : ∀ p ∈ sample, p < CHAMBER_COUNT) :
    (create_chambers bc sample).count true = sample.length := by
  rw [create_chambers_eq_map bc sample hbc]
  have hcount : ((List.range CHAMBER_COUNT).map fun i => sample.contains i).count true
      = (List.range CHAMBER_COUNT).countP (fun i => sample.contains i) := by
    rw [List.count, List.countP_map]
    apply List.countP_congr
    intro a _
    simp [Function.comp]
  rw [hcount, List.countP_eq_length_filter]
  have hperm :
      List.Perm ((List.range CHAMBER_COUNT).filter (fun i => sample.contains i))
        sample := by
    rw [List.perm_ext_iff_of_nodup (List.Nodup.filter _ (List.nodup_range _)) hnd]
    intro a
    simp only [List.mem_filter, List.mem_range]
    constructor
    · rintro ⟨_, hmem⟩
      simpa using hmem
    · intro hmem
      exact ⟨hlt a hmem, by simpa using hmem⟩
  exact hperm.length_eq

/-! ### Helper lemmas about `Game.fire` -/

theorem fire_outcome (g : Game) :
    (g.fire).1 = if g.chambers.getD g.current false then FireOutcome.Hit
      else FireOutcome.Miss := by
  cases hl : g.chambers.getD g.current false with
  | true =>
      rw [List.getD_eq_getElem?_getD] at hl
      simp [Game.fire, hl]
  | false =>
      rw [List.getD_eq_getElem?_getD] at hl
      simp [Game.fire, hl]

theorem fire_chambers (g : Game) :
    (g.fire).2.chambers
      = if g.chambers.getD g.current false then g.chambers.set g.current false
        else g.chambers := by
  cases hl : g.chambers.getD g.current false with
  | true =>
      rw [List.getD_eq_getElem?_getD] at hl
      simp [Game.fire, hl]
  | false =>
      rw [List.getD_eq_getElem?_getD] at hl
      simp [Game.fire, hl]

theorem fire_current (g : Game) :
    (g.fire).2.current = (g.current + 1) % CHAMBER_COUNT := by
  cases hl : g.chambers.getD g.current false with
  | true =>
      rw [List.getD_eq_getElem?_getD] at hl
      simp [Game.fire, hl]
  | false =>
      rw [List.getD_eq_getElem?_getD] at hl
      simp [Game.fire, hl]

theorem fireMany_current (g : Game) (hcur : g.current < CHAMBER_COUNT) (n : Nat) :
    (g.fireMany n).current = (g.current + n) % CHAMBER_COUNT := by
  induction n with
  | zero =>
      simpa [Game.fireMany] using (Nat.mod_eq_of_lt hcur).symm
  | succ n ih =>
      show ((g.fireMany n).fire).2.current = _
      rw [fire_current, ih, Nat.mod_add_mod, Nat.add_assoc]

theorem fire_chambers_monotone (g : Game) (i : Nat)
    (h : (g.fire).2.chambers.getD i false = true) :
    g.chambers.getD i false = true := by
  rw [fire_chambers] at h
  by_cases hl : g.chambers.getD g.current false
  · rw [if_pos hl] at h
    by_cases hic : g.current = i
    · exfalso
      subst hic
      rw [List.getD_eq_getElem?_getD, List.getElem?_set, if_pos rfl] at h
      by_cases hbound : g.current < g.chambers.length
      · rw [if_pos hbound] at h
        simp at h
      · rw [if_neg hbound] at h
        simp at h
    · rw [List.getD_eq_getElem?_getD, List.getElem?_set, if_neg hic] at h
      rw [List.getD_eq_getElem?_getD]
      exact h
  · rwa [if_neg hl] at h

theorem fireMany_chambers_monotone (g : Game) (n i : Nat)
    (h : (g.fireMany n).chambers.getD i false = true) :
    g.chambers.getD i false = true := by
  induction n with
  | zero => exact h
  | succ n ih => exact ih (fire_chambers_monotone (g.fireMany n) i h)

/-! ### Claim theorems -/

/-- C1: for every active game, a fire reads the chamber at the cursor — if it
is live the slot is cleared (and no chamber ever turns live again during the
game) and the outcome is `Hit`; otherwise the outcome is `Miss` and all
chambers are unchanged; in both cases the cursor advances to
`(cursor + 1) % 6`, so six consecutive fires from a freshly loaded game
(cursor 0) visit the six chamber positions exactly once each, in cursor order
with wraparound. -/
theorem C1_fire_reads_clears_advances (g : Game)
    (hlen : g.chambers.length = CHAMBER_COUNT)
    (hcur : g.current < CHAMBER_COUNT) :
    (g.chambers.getD g.current false = true →
        (g.fire).1 = FireOutcome.Hit
          ∧ (g.fire).2.chambers.getD g.current false = false)
      ∧ (g.chambers.getD g.current false = false →
        (g.fire).1 = FireOutcome.Miss ∧ (g.fire).2.chambers = g.chambers)
      ∧ (g.fire).2.current = (g.current + 1) % CHAMBER_COUNT
      ∧ (∀ n i, (g.fireMany n).chambers.getD i false = true →
        g.chambers.getD i false = true)
      ∧ (g.current = 0 → g.visited CHAMBER_COUNT = [0, 1, 2, 3, 4, 5]) := by
  refine ⟨fun hlive => ⟨?_, ?_⟩, fun hempty => ⟨?_, ?_⟩, fire_current g,
    fireMany_chambers_monotone g, fun h0 => ?_⟩
  · rw [fire_outcome, if_pos hlive]
  · rw [fire_chambers, if_pos hlive, List.getD_eq_getElem?_getD,
      List.getElem?_set, if_pos rfl, if_pos (hlen ▸ hcur)]
    rfl
  · rw [fire_outcome, if_neg (by rw [hempty]; decide)]
  · rw [fire_chambers, if_neg (by rw [hempty]; decide)]
  · unfold Game.visited
    have hmap : ∀ i ∈ List.range CHAMBER_COUNT,
        (g.fireMany i).current = (0 + i) % CHAMBER_COUNT := by
      intro i _
      rw [fireMany_current g hcur i, h0]
    rw [List.map_congr_left hmap]
    decide

/-- Witness for C1 at the concrete chamber arrangement
`[live, empty, live, empty, empty, live]` with cursor `0`. -/
theorem C1_fire_reads_clears_advances_witness :
    ((Game.mk [true, false, true, false, false, true] 0).chambers.length
        = CHAMBER_COUNT)
      ∧ ((Game.mk [true, false, true, false, false, true] 0).current
        < CHAMBER_COUNT)
      ∧ (((Game.mk [true, false, true, false, false, true] 0).chambers.getD
            (Game.mk [true, false, true, false, false, true] 0).current false
            = true →
          ((Game.mk [true, false, true, false, false, true] 0).fire).1
              = FireOutcome.Hit
            ∧ ((Game.mk [true, false, true, false, false, true] 0).fire).2.chambers.getD
              (Game.mk [true, false, true, false, false, true] 0).current false
              = false)
        ∧ ((Game.mk [true, false, true, false, false, true] 0).chambers.getD
            (Game.mk [true, false, true, false, false, true] 0).current false
            = false →
          ((Game.mk [true, false, true, false, false, true] 0).fire).1
              = FireOutcome.Miss
            ∧ ((Game.mk [true, false, true, false, false, true] 0).fire).2.chambers
              = (Game.mk [true, false, true, false, false, true] 0).chambers)
        ∧ ((Game.mk [true, false, true, false, false, true] 0).fire).2.current
          = ((Game.mk [true, false, true, false, false, true] 0).current + 1)
            % CHAMBER_COUNT
        ∧ (∀ n i,
          ((Game.mk [true, false, true, false, false, true] 0).fireMany n).chambers.getD
              i false = true →
            (Game.mk [true, false, true, false, false, true] 0).chambers.getD i false
              = true)
        ∧ ((Game.mk [true, false, true, false, false, true] 0).current = 0 →
          (Game.mk [true, false, true, false, false, true] 0).visited CHAMBER_COUNT
            = [0, 1, 2, 3, 4, 5])) :=
  ⟨by decide, by decide,
    C1_fire_reads_clears_advances (Game.mk [true, false, true, false, false, true] 0)
      (by decide) (by decide)⟩

/-- The per-group registry invariant of the claim: whenever a game is
registered for the group, at least one of its chambers is live. -/
def GameInv (s : GroupState) : Prop :=
  ∀ g, s.game = some g → 0 < g.chambers.count true

theorem parse_bullet_count_range (message : String) (c : Nat)
    (h : parse_bullet_count message = some c) : 1 ≤ c ∧ c ≤ CHAMBER_COUNT := by
  simp only [parse_bullet_count] at h
  split at h
  · exact absurd h (by simp)
  · split at h
    · split at h
      · rename_i count hrange
        rw [Option.some_inj] at h
        subst h
        simp only [CHAMBER_COUNT] at hrange ⊢
        omega
      · exact absurd h (by simp)
    · exact absurd h (by simp)

theorem shoot_preserves_inv (s : GroupState) : GameInv (shoot s).2 := by
  intro g' hg'
  cases hs : s.game with
  | none =>
      simp only [shoot, hs] at hg'
      exact Option.noConfusion hg'
  | some g =>
      simp only [shoot, hs] at hg'
      by_cases hrem : (g.fire).2.chambers.count true = 0
      · simp [hrem] at hg'
      · simp [hrem] at hg'
        subst hg'
        exact Nat.pos_of_ne_zero hrem

/-- C2: a game exists for a group iff at least one of its chambers is live —
the invariant is preserved by every operation (`load_bullets` assuming the
`random.sample` contract, `shoot` unconditionally, the timeout callback), a
fire that brings the live count to zero deletes the game and the timeout
handle in the same operation, and a status query afterwards (or for any group
with no game) reports `NoActiveGame`. -/
theorem C2_registry_iff_live :
    (∀ (s : GroupState) (message : String) (isAdmin : Bool) (randomCount : Nat)
        (sample : List Nat), GameInv s → sample.Nodup →
        (∀ p ∈ sample, p < CHAMBER_COUNT) → 1 ≤ sample.length →
        1 ≤ randomCount →
        GameInv (load_bullets s message isAdmin randomCount sample).2)
      ∧ (∀ s : GroupState, GameInv (shoot s).2)
      ∧ (∀ (s : GroupState) (h : Nat), GameInv s → GameInv (timeout_check s h))
      ∧ (∀ (s : GroupState) (g : Game), s.game = some g →
        (g.fire).2.chambers.count true = 0 →
          (shoot s).2.game = none ∧ (shoot s).2.timeoutHandle = none
            ∧ game_status (shoot s).2 = StatusReply.noActiveGame)
      ∧ (∀ s : GroupState, s.game = none →
        game_status s = StatusReply.noActiveGame) := by
  refine ⟨?_, shoot_preserves_inv, ?_, ?_, ?_⟩
  · intro s message isAdmin randomCount sample hinv hnd hlt hlen hrc g' hg'
    unfold load_bullets at hg'
    split at hg'
    · exact hinv g' hg'
    · split at hg'
      · split at hg'
        · exact hinv g' hg'
        · rename_i count hparse _
          simp only [start_timeout] at hg'
          rw [Option.some_inj] at hg'
          subst hg'
          rw [create_chambers_count count sample
            (Nat.lt_of_lt_of_le Nat.zero_lt_one
              (parse_bullet_count_range message count hparse).1) hnd hlt]
          exact hlen
      · simp only [start_timeout] at hg'
        rw [Option.some_inj] at hg'
        subst hg'
        rw [create_chambers_count randomCount sample hrc hnd hlt]
        exact hlen
  · intro s h hinv g' hg'
    unfold timeout_check at hg'
    split at hg'
    · split at hg'
      · simp at hg'
      · exact hinv g' hg'
    · exact hinv g' hg'
  · intro s g hg hzero
    simp [shoot, hg, hzero, game_status]
  · intro s hnone
    simp [game_status, hnone]

/-- Witness for C2: a fresh load into an empty group, a fire on a
single-live-chamber game (which empties it), and a status query on the
emptied group. -/
theorem C2_registry_iff_live_witness :
    (GameInv (GroupState.mk none none 0) ∧ ([1, 4] : List Nat).Nodup
      ∧ (∀ p ∈ ([1, 4] : List Nat), p < CHAMBER_COUNT)
      ∧ 1 ≤ ([1, 4] : List Nat).length ∧ 1 ≤ 2
      ∧ GameInv (load_bullets (GroupState.mk none none 0) "装填 2" true 2 [1, 4]).2)
      ∧ ((GroupState.mk
            (some (Game.mk [true, false, false, false, false, false] 0))
            (some 7) 8).game
          = some (Game.mk [true, false, false, false, false, false] 0)
        ∧ ((Game.mk [true, false, false, false, false, false] 0).fire).2.chambers.count
            true = 0
        ∧ ((shoot (GroupState.mk
              (some (Game.mk [true, false, false, false, false, false] 0))
              (some 7) 8)).2.game = none
          ∧ (shoot (GroupState.mk
              (some (Game.mk [true, false, false, false, false, false] 0))
              (some 7) 8)).2.timeoutHandle = none
          ∧ game_status (shoot (GroupState.mk
              (some (Game.mk [true, false, false, false, false, false] 0))
              (some 7) 8)).2 = StatusReply.noActiveGame))
      ∧ ((GroupState.mk none none 0).game = none
        ∧ game_status (GroupState.mk none none 0)
          = StatusReply.noActiveGame) :=
  ⟨⟨fun g h => Option.noConfusion h, by decide, by decide, by decide, by decide,
      C2_registry_iff_live.1 (GroupState.mk none none 0) "装填 2" true 2 [1, 4]
        (fun g h => Option.noConfusion h) (by decide) (by decide) (by decide)
        (by decide)⟩,
    ⟨rfl, by decide,
      C2_registry_iff_live.2.2.2.1
        (GroupState.mk (some (Game.mk [true, false, false, false, false, false] 0))
          (some 7) 8)
        (Game.mk [true, false, false, false, false, false] 0) rfl (by decide)⟩,
    ⟨rfl, C2_registry_iff_live.2.2.2.2 (GroupState.mk none none 0) rfl⟩⟩

theorem create_chambers_mem_iff (bc : Nat) (sample : List Nat) (i : Nat)
    (hbc : 0 < bc) (hi : i < CHAMBER_COUNT) :
    ((create_chambers bc sample).getD i false = true ↔ i ∈ sample) := by
  rw [create_chambers_getD bc sample i hbc hi]
  simp

/-- C3: for every bulletCount in `[1,6]`, `load` creates a game with exactly
six chambers of which exactly the `bulletCount` sampled positions (the
without-replacement draw of `random.sample`) are live and all the others
empty, with the cursor reset to `0` — both on the admin path with an explicit
parsed count and on the random path. -/
theorem C3_load_exact_live_chambers (s : GroupState) (message : String)
    (bc randomCount : Nat) (sample : List Nat) (hgame : s.game = none)
    (hnd : sample.Nodup) (hlt : ∀ p ∈ sample, p < CHAMBER_COUNT) :
    (parse_bullet_count message = some bc → sample.length = bc →
      ∃ g, (load_bullets s message true randomCount sample).2.game = some g
        ∧ (load_bullets s message true randomCount sample).1
          = LoadReply.loaded bc
        ∧ g.chambers.length = CHAMBER_COUNT
        ∧ g.chambers.count true = bc
        ∧ (∀ i, i < CHAMBER_COUNT →
          (g.chambers.getD i false = true ↔ i ∈ sample))
        ∧ g.current = 0)
      ∧ (parse_bullet_count message = none → 1 ≤ randomCount →
        sample.length = randomCount → ∀ isAdmin,
        ∃ g, (load_bullets s message isAdmin randomCount sample).2.game = some g
          ∧ (load_bullets s message isAdmin randomCount sample).1
            = LoadReply.loaded randomCount
          ∧ g.chambers.length = CHAMBER_COUNT
          ∧ g.chambers.count true = randomCount
          ∧ (∀ i, i < CHAMBER_COUNT →
            (g.chambers.getD i false = true ↔ i ∈ sample))
          ∧ g.current = 0) := by
  constructor
  · intro hparse hlen
    have hbc : 0 < bc :=
      Nat.lt_of_lt_of_le Nat.zero_lt_one
        (parse_bullet_count_range message bc hparse).1
    refine ⟨Game.mk (create_chambers bc sample) 0, ?_, ?_, ?_, ?_, ?_, rfl⟩
    · simp [load_bullets, hgame, hparse, start_timeout]
    · simp [load_bullets, hgame, hparse]
    · exact create_chambers_length bc sample
    · rw [create_chambers_count bc sample hbc hnd hlt]
      exact hlen
    · intro i hi
      exact create_chambers_mem_iff bc sample i hbc hi
  · intro hparse hrc hlen isAdmin
    refine ⟨Game.mk (create_chambers randomCount sample) 0, ?_, ?_, ?_, ?_, ?_,
      rfl⟩
    · simp [load_bullets, hgame, hparse, start_timeout]
    · simp [load_bullets, hgame, hparse]
    · exact create_chambers_length randomCount sample
    · rw [create_chambers_count randomCount sample hrc hnd hlt]
      exact hlen
    · intro i hi
      exact create_chambers_mem_iff randomCount sample i hrc hi

/-- Witness for C3: `装填 3` by an admin with sample `{0, 2, 5}`, and a random
load of 2 with sample `{1, 4}`. -/
theorem C3_load_exact_live_chambers_witness :
    ((GroupState.mk none none 0).game = none ∧ ([0, 2, 5] : List Nat).Nodup
      ∧ (∀ p ∈ ([0, 2, 5] : List Nat), p < CHAMBER_COUNT)
      ∧ parse_bullet_count "装填 3" = some 3 ∧ ([0, 2, 5] : List Nat).length = 3
      ∧ ∃ g, (load_bullets (GroupState.mk none none 0) "装填 3" true 6
          [0, 2, 5]).2.game = some g
        ∧ (load_bullets (GroupState.mk none none 0) "装填 3" true 6 [0, 2, 5]).1
          = LoadReply.loaded 3
        ∧ g.chambers.length = CHAMBER_COUNT
        ∧ g.chambers.count true = 3
        ∧ (∀ i, i < CHAMBER_COUNT →
          (g.chambers.getD i false = true ↔ i ∈ ([0, 2, 5] : List Nat)))
        ∧ g.current = 0)
      ∧ (parse_bullet_count "开枪" = none ∧ 1 ≤ 2
        ∧ ([1, 4] : List Nat).length = 2
        ∧ ∃ g, (load_bullets (GroupState.mk none none 0) "开枪" false 2
            [1, 4]).2.game = some g
          ∧ (load_bullets (GroupState.mk none none 0) "开枪" false 2 [1, 4]).1
            = LoadReply.loaded 2
          ∧ g.chambers.length = CHAMBER_COUNT
          ∧ g.chambers.count true = 2
          ∧ (∀ i, i < CHAMBER_COUNT →
            (g.chambers.getD i false = true ↔ i ∈ ([1, 4] : List Nat)))
          ∧ g.current = 0) :=
  ⟨⟨rfl, by decide, by decide, by decide, by decide,
      (C3_load_exact_live_chambers (GroupState.mk none none 0) "装填 3" 3 6
        [0, 2, 5] rfl (by decide) (by decide)).1 (by decide) (by decide)⟩,
    ⟨by decide, by decide, by decide,
      (C3_load_exact_live_chambers (GroupState.mk none none 0) "开枪" 3 2
        [1, 4] rfl (by decide) (by decide)).2 (by decide) (by decide) (by decide)
        false⟩⟩

/-- C4 counterexample: the claim quantifies over every start path, but the
legacy `StartRevolverGameTool.run` (one of the claim's sources) receives no
requester-role information at all: with no game in progress and explicit
`bullets = 3` it creates the game and reports success — not
`PermissionDenied` — whoever the requester is, in particular a non-admin. -/
theorem C4_counterexample :
    (startRevolverGameTool_run (GroupState.mk none none 0) (some 42) (some 3) 5
        [0, 1, 2]).1 = ToolStartReply.started 3
      ∧ (startRevolverGameTool_run (GroupState.mk none none 0) (some 42)
          (some 3) 5 [0, 1, 2]).2.game
        = some (Game.mk [true, true, true, false, false, false] 0) := by
  decide

/-- C4 amended: with no game in progress, an explicit bullet count from a
non-admin is rejected with `PermissionDenied` and the state is untouched on
the `装填` command path (`load_bullets`) and on the AI path (`ai_start_game`
with an in-range count); the legacy `StartRevolverGameTool.run`, however,
performs no admin check and always creates the game. -/
theorem C4_nonadmin_explicit_count (s : GroupState) :
    (∀ (message : String) (bc randomCount : Nat) (sample : List Nat),
      s.game = none → parse_bullet_count message = some bc →
        load_bullets s message false randomCount sample
          = (LoadReply.permissionDenied, s))
      ∧ (∀ (b randomCount : Nat) (sample : List Nat),
        s.game = none → 1 ≤ b → b ≤ CHAMBER_COUNT →
          ai_start_game s (some b) false randomCount sample
            = (AiStartReply.permissionDenied, s))
      ∧ (∀ (groupId randomCount : Nat) (bullets : Option Nat)
          (sample : List Nat), s.game = none →
          (startRevolverGameTool_run s (some groupId) bullets randomCount
            sample).2.game ≠ none) := by
  refine ⟨?_, ?_, ?_⟩
  · intro message bc randomCount sample hgame hparse
    simp [load_bullets, hgame, hparse]
  · intro b randomCount sample hgame hb1 hb2
    simp [ai_start_game, hgame, hb1, hb2]
  · intro groupId randomCount bullets sample hgame
    cases bullets with
    | none => simp [startRevolverGameTool_run, hgame]
    | some b => simp [startRevolverGameTool_run, hgame]

/-- Witness for the amended C4: a non-admin `装填 4`, a non-admin AI start
with 2 bullets, and the legacy tool with 3 bullets, all on an empty group. -/
theorem C4_nonadmin_explicit_count_witness :
    ((GroupState.mk none none 0).game = none
      ∧ parse_bullet_count "装填 4" = some 4
      ∧ load_bullets (GroupState.mk none none 0) "装填 4" false 5 [0, 1, 2, 3]
        = (LoadReply.permissionDenied, GroupState.mk none none 0))
      ∧ (1 ≤ 2 ∧ 2 ≤ CHAMBER_COUNT
        ∧ ai_start_game (GroupState.mk none none 0) (some 2) false 5 [1, 3]
          = (AiStartReply.permissionDenied, GroupState.mk none none 0))
      ∧ (startRevolverGameTool_run (GroupState.mk none none 0) (some 9)
          (some 3) 5 [0, 1, 2]).2.game ≠ none :=
  ⟨⟨rfl, by decide,
      (C4_nonadmin_explicit_count (GroupState.mk none none 0)).1 "装填 4" 4 5
        [0, 1, 2, 3] rfl (by decide)⟩,
    ⟨by decide, by decide,
      (C4_nonadmin_explicit_count (GroupState.mk none none 0)).2.1 2 5 [1, 3]
        rfl (by decide) (by decide)⟩,
    (C4_nonadmin_explicit_count (GroupState.mk none none 0)).2.2 9 5 (some 3)
      [0, 1, 2] rfl⟩

/-! ### Helper lemmas about the trigger queue -/

theorem lookup_filter_self (q : TriggerQueue) (k : String) :
    (q.filter (fun e => e.1 != k)).lookup k = none := by
  induction q with
  | nil => rfl
  | cons e t ih =>
      obtain ⟨k1, v⟩ := e
      by_cases h : k1 = k
      · subst h
        simpa using ih
      · simp only [List.filter_cons]
        rw [if_pos (by simpa using h)]
        rw [List.lookup_cons]
        simp only [show (k == k1) = false from by simpa using Ne.symm h]
        exact ih

theorem lookup_filter_other (q : TriggerQueue) (k k' : String) (h : k' ≠ k) :
    (q.filter (fun e => e.1 != k)).lookup k' = q.lookup k' := by
  induction q with
  | nil => rfl
  | cons e t ih =>
      obtain ⟨k1, v⟩ := e
      by_cases h1 : k1 = k
      · subst h1
        simp only [List.filter_cons]
        rw [if_neg (by simp)]
        rw [List.lookup_cons]
        simp only [show (k' == k1) = false from by simpa using h]
        exact ih
      · simp only [List.filter_cons]
        rw [if_pos (by simpa using h1)]
        rw [List.lookup_cons, List.lookup_cons]
        cases hk : (k' == k1) with
        | true => rfl
        | false => exact ih

theorem countP_filter_self (q : TriggerQueue) (k : String) :
    (q.filter (fun e => e.1 != k)).countP (fun e => e.1 == k) = 0 := by
  rw [List.countP_eq_zero]
  intro e he
  have hmem := List.of_mem_filter he
  simp only [bne_iff_ne, ne_eq, decide_not] at hmem ⊢
  simpa using hmem

/-- C5: `enqueue` overwrites the entry of its key (at most one pending
trigger per key), a single drain removes and executes only the most recently
enqueued action, other keys are untouched, a second drain of the same key is
a no-op, and running the two drain call sites (post-response hook, then
post-send backup hook) executes the enqueued trigger exactly once. -/
theorem C5_trigger_queue_drain_once (q : TriggerQueue) (k : String)
    (a b : TriggerData) :
    register_ai_trigger (register_ai_trigger q k a) k b
        = register_ai_trigger q k b
      ∧ (register_ai_trigger (register_ai_trigger q k a) k b).countP
        (fun e => e.1 == k) = 1
      ∧ (execute_ai_trigger (register_ai_trigger (register_ai_trigger q k a) k b)
        k).1 = some b
      ∧ (execute_ai_trigger (register_ai_trigger (register_ai_trigger q k a) k b)
        k).2.lookup k = none
      ∧ (∀ k', k' ≠ k →
        (execute_ai_trigger
          (register_ai_trigger (register_ai_trigger q k a) k b) k).2.lookup k'
          = q.lookup k')
      ∧ (execute_ai_trigger
          (execute_ai_trigger
            (register_ai_trigger (register_ai_trigger q k a) k b) k).2 k
        = (none,
          (execute_ai_trigger
            (register_ai_trigger (register_ai_trigger q k a) k b) k).2))
      ∧ ((on_decorating_result
            (register_ai_trigger (register_ai_trigger q k a) k b) k).1 = some b
        ∧ (on_message_sent
            (on_decorating_result
              (register_ai_trigger (register_ai_trigger q k a) k b) k).2 k).1
          = none
        ∧ (on_message_sent
            (on_decorating_result
              (register_ai_trigger (register_ai_trigger q k a) k b) k).2 k).2
          = (on_decorating_result
              (register_ai_trigger (register_ai_trigger q k a) k b) k).2) := by
  have hover : register_ai_trigger (register_ai_trigger q k a) k b
      = register_ai_trigger q k b := by
    unfold register_ai_trigger
    congr 1
    rw [List.filter_cons]
    rw [if_neg (by simp)]
    rw [List.filter_filter]
    apply List.filter_congr
    intro e _
    simp
  have hlook : (register_ai_trigger q k b).lookup k = some b := by
    unfold register_ai_trigger
    rw [List.lookup_cons]
    simp
  have hexec : execute_ai_trigger (register_ai_trigger q k b) k
      = (some b, (register_ai_trigger q k b).filter (fun e => e.1 != k)) := by
    unfold execute_ai_trigger
    rw [hlook]
  have herase : (register_ai_trigger q k b).filter (fun e => e.1 != k)
      = q.filter (fun e => e.1 != k) := by
    unfold register_ai_trigger
    rw [List.filter_cons]
    rw [if_neg (by simp)]
    rw [List.filter_filter]
    apply List.filter_congr
    intro e _
    simp
  refine ⟨hover, ?_, ?_, ?_, ?_, ?_, ?_, ?_, ?_⟩
  · rw [hover]
    unfold register_ai_trigger
    rw [List.countP_cons]
    rw [countP_filter_self]
    simp
  · rw [hover, hexec]
  · rw [hover, hexec]
    exact hlook ▸ (herase ▸ lookup_filter_self q k)
  · intro k' hk'
    rw [hover, hexec]
    simp only
    rw [herase]
    exact lookup_filter_other q k k' hk'
  · rw [hover, hexec]
    simp only
    unfold execute_ai_trigger
    rw [herase, lookup_filter_self]
  · rw [hover]
    unfold on_decorating_result
    rw [hlook]
    simp only [Option.isSome_some, if_true]
    rw [hexec]
  · rw [hover]
    unfold on_decorating_result on_message_sent
    rw [hlook]
    simp only [Option.isSome_some, if_true]
    rw [hexec]
    simp only
    rw [herase, lookup_filter_self]
    simp
  · rw [hover]
    unfold on_decorating_result on_message_sent
    rw [hlook]
    simp only [Option.isSome_some, if_true]
    rw [hexec]
    simp only
    rw [herase, lookup_filter_self]
    simp

/-- Witness for C5: key `"y"` is enqueued twice over a queue already holding
key `"x"`; the drain returns the second entry and leaves `"x"` alone. -/
theorem C5_trigger_queue_drain_once_witness :
    ("x" : String) ≠ "y"
      ∧ (execute_ai_trigger (register_ai_trigger (register_ai_trigger
          [("x", TriggerData.mk TriggerAction.join 5)] "y"
          (TriggerData.mk TriggerAction.start 1)) "y"
          (TriggerData.mk TriggerAction.toStatus 2)) "y").1
        = some (TriggerData.mk TriggerAction.toStatus 2)
      ∧ (execute_ai_trigger (register_ai_trigger (register_ai_trigger
          [("x", TriggerData.mk TriggerAction.join 5)] "y"
          (TriggerData.mk TriggerAction.start 1)) "y"
          (TriggerData.mk TriggerAction.toStatus 2)) "y").2.lookup "x"
        = ([("x", TriggerData.mk TriggerAction.join 5)] : TriggerQueue).lookup
          "x" :=
  ⟨by decide,
    (C5_trigger_queue_drain_once [("x", TriggerData.mk TriggerAction.join 5)]
      "y" (TriggerData.mk TriggerAction.start 1)
      (TriggerData.mk TriggerAction.toStatus 2)).2.2.1,
    (C5_trigger_queue_drain_once [("x", TriggerData.mk TriggerAction.join 5)]
      "y" (TriggerData.mk TriggerAction.start 1)
      (TriggerData.mk TriggerAction.toStatus 2)).2.2.2.2.1 "x" (by decide)⟩

/-- C6: arming the timeout replaces (cancels) the previously outstanding
handle before storing the new one — after two consecutive arms the stored
handle is the second one and no other handle can ever run its callback body —
and a timeout callback that runs after the game was already removed performs
no state mutation. -/
theorem C6_rearm_cancels_stale_noop (s : GroupState) :
    ((start_timeout (start_timeout s)).timeoutHandle = some (s.nextHandle + 1)
      ∧ s.nextHandle ≠ s.nextHandle + 1
      ∧ (∀ h, h ≠ s.nextHandle + 1 →
        timeout_check (start_timeout (start_timeout s)) h
          = start_timeout (start_timeout s)))
      ∧ (∀ (s' : GroupState) (h : Nat), s'.game = none →
        timeout_check s' h = s') := by
  refine ⟨⟨rfl, by omega, ?_⟩, ?_⟩
  · intro h hneq
    unfold timeout_check
    rw [if_neg (by simp [start_timeout]; omega)]
  · intro s' h hgame
    unfold timeout_check
    split
    · simp [hgame]
    · rfl

/-- Witness for C6: double arm from the empty state (the first handle `0`
cannot fire), and a callback with a still-current handle on a group whose
game is already gone. -/
theorem C6_rearm_cancels_stale_noop_witness :
    ((0 : Nat) ≠ (GroupState.mk none none 0).nextHandle + 1
      ∧ timeout_check (start_timeout (start_timeout (GroupState.mk none none 0)))
          0
        = start_timeout (start_timeout (GroupState.mk none none 0)))
      ∧ ((GroupState.mk none (some 5) 6).game = none
        ∧ timeout_check (GroupState.mk none (some 5) 6) 5
          = GroupState.mk none (some 5) 6) :=
  ⟨⟨by decide,
      (C6_rearm_cancels_stale_noop (GroupState.mk none none 0)).1.2.2 0
        (by decide)⟩,
    ⟨rfl,
      (C6_rearm_cancels_stale_noop (GroupState.mk none none 0)).2
        (GroupState.mk none (some 5) 6) 5 rfl⟩⟩

/-- C7: when the role lookup at penalty time returns `owner` or `admin`, the
target is immune — `_ban_user` returns duration `0` and never issues the
mute call — and the role is obtained by a fresh lookup at call time: the
request `_is_user_bannable` sends always carries `no_cache=True`. -/
theorem C7_owner_admin_immune (groupId userId : Nat) (role : String)
    (hasBanApi : Bool) (banDuration : Nat) (banCallSucceeds : Bool)
    (hrole : role = "owner" ∨ role = "admin") :
    ban_user (some groupId) true (Except.ok role) hasBanApi banDuration
        banCallSucceeds = BanResult.mk 0 false
      ∧ (bannable_lookup_request groupId userId).no_cache = true := by
  constructor
  · have hnb : is_user_bannable (some groupId) true (Except.ok role) = false := by
      rcases hrole with h | h <;> subst h <;> rfl
    unfold ban_user
    rw [hnb]
    rfl
  · rfl

/-- Witness for C7: an `admin` target in group 7. -/
theorem C7_owner_admin_immune_witness :
    (("admin" : String) = "owner" ∨ ("admin" : String) = "admin")
      ∧ ban_user (some 7) true (Except.ok "admin") true 120 true
        = BanResult.mk 0 false
      ∧ (bannable_lookup_request 7 99).no_cache = true :=
  ⟨Or.inr rfl,
    (C7_owner_admin_immune 7 99 "admin" true 120 true (Or.inr rfl)).1,
    (C7_owner_admin_immune 7 99 "admin" true 120 true (Or.inr rfl)).2⟩

theorem range_filter_contains_perm (sample : List Nat) (hnd : sample.Nodup)
    (hlt : ∀ p ∈ sample, p < CHAMBER_COUNT) :
    List.Perm ((List.range CHAMBER_COUNT).filter (fun i => sample.contains i))
      sample := by
  rw [List.perm_ext_iff_of_nodup (List.Nodup.filter _ (List.nodup_range _)) hnd]
  intro a
  simp only [List.mem_filter, List.mem_range]
  constructor
  · rintro ⟨_, hmem⟩
    simpa using hmem
  · intro hmem
    exact ⟨hlt a hmem, by simpa using hmem⟩

theorem create_chambers_full (sample : List Nat) (hnd : sample.Nodup)
    (hlen : sample.length = 6) (hlt : ∀ p ∈ sample, p < CHAMBER_COUNT) :
    create_chambers 6 sample = List.replicate 6 true := by
  have hperm := range_filter_contains_perm sample hnd hlt
  have hfeq : (List.range CHAMBER_COUNT).filter (fun i => sample.contains i)
      = List.range CHAMBER_COUNT :=
    (List.filter_sublist _).eq_of_length
      (by rw [hperm.length_eq, hlen]; simp [CHAMBER_COUNT])
  have hmem : ∀ i, i < CHAMBER_COUNT → i ∈ sample := by
    intro i hi
    have hin : i ∈ (List.range CHAMBER_COUNT).filter
        (fun i => sample.contains i) := by
      rw [hfeq]
      simpa using hi
    simpa using List.of_mem_filter hin
  rw [create_chambers_eq_map 6 sample (by decide)]
  apply List.ext_getElem
  · simp [CHAMBER_COUNT]
  · intro i h1 h2
    simp only [List.getElem_map, List.getElem_range, List.getElem_replicate]
    have : i < CHAMBER_COUNT := by simpa [CHAMBER_COUNT] using h1
    simpa using hmem i this

/-- C8 counterexample: with all six chambers live (`bulletCount = 6`) the
first fire is a `Hit` but does not end the game — five live chambers remain,
the game is still registered and a status query still reports an active
game. -/
theorem C8_counterexample :
    (shoot (GroupState.mk
        (some (Game.mk (create_chambers 6 [0, 1, 2, 3, 4, 5]) 0)) none 0)).1
        = ShootReply.fired FireOutcome.Hit false
      ∧ (shoot (GroupState.mk
          (some (Game.mk (create_chambers 6 [0, 1, 2, 3, 4, 5]) 0)) none 0)).2.game
        = some (Game.mk [false, true, true, true, true, true] 1)
      ∧ game_status (shoot (GroupState.mk
          (some (Game.mk (create_chambers 6 [0, 1, 2, 3, 4, 5]) 0)) none 0)).2
        ≠ StatusReply.noActiveGame := by
  decide

/-- C8 amended: a game loaded with `bulletCount = 6` has every chamber live,
every one of the first six fires is a `Hit`, the game survives the first five
fires, and it is the sixth fire that exhausts it — deleting the game and its
timeout handle. -/
theorem C8_full_load_ends_on_sixth_fire (sample : List Nat) (th : Option Nat)
    (nh : Nat) (hnd : sample.Nodup) (hlen : sample.length = 6)
    (hlt : ∀ p ∈ sample, p < CHAMBER_COUNT) :
    create_chambers 6 sample = List.replicate 6 true
      ∧ (List.range 6).map (fun k =>
          (shoot (shootMany (GroupState.mk
            (some (Game.mk (List.replicate 6 true) 0)) th nh) k)).1)
        = [ShootReply.fired FireOutcome.Hit false,
           ShootReply.fired FireOutcome.Hit false,
           ShootReply.fired FireOutcome.Hit false,
           ShootReply.fired FireOutcome.Hit false,
           ShootReply.fired FireOutcome.Hit false,
           ShootReply.fired FireOutcome.Hit true]
      ∧ (∀ k, k < 6 → (shootMany (GroupState.mk
          (some (Game.mk (List.replicate 6 true) 0)) th nh) k).game ≠ none)
      ∧ (shootMany (GroupState.mk
          (some (Game.mk (List.replicate 6 true) 0)) th nh) 6).game = none
      ∧ (shootMany (GroupState.mk
          (some (Game.mk (List.replicate 6 true) 0)) th nh) 6).timeoutHandle
        = none := by
  refine ⟨create_chambers_full sample hnd hlen hlt, rfl, ?_, rfl, rfl⟩
  intro k hk h
  interval_cases k <;> exact Option.noConfusion h

/-- Witness for the amended C8 at the full sample `[0,1,2,3,4,5]`. -/
theorem C8_full_load_ends_on_sixth_fire_witness :
    ([0, 1, 2, 3, 4, 5] : List Nat).Nodup
      ∧ ([0, 1, 2, 3, 4, 5] : List Nat).length = 6
      ∧ (∀ p ∈ ([0, 1, 2, 3, 4, 5] : List Nat), p < CHAMBER_COUNT)
      ∧ create_chambers 6 [0, 1, 2, 3, 4, 5] = List.replicate 6 true
      ∧ (∀ k, k < 6 → (shootMany (GroupState.mk
          (some (Game.mk (List.replicate 6 true) 0)) none 0) k).game ≠ none)
      ∧ (shootMany (GroupState.mk
          (some (Game.mk (List.replicate 6 true) 0)) none 0) 6).game = none
      ∧ (shootMany (GroupState.mk
          (some (Game.mk (List.replicate 6 true) 0)) none 0) 6).timeoutHandle
        = none :=
  ⟨by decide, by decide, by decide,
    (C8_full_load_ends_on_sixth_fire [0, 1, 2, 3, 4, 5] none 0 (by decide)
      (by decide) (by decide)).1,
    (C8_full_load_ends_on_sixth_fire [0, 1, 2, 3, 4, 5] none 0 (by decide)
      (by decide) (by decide)).2.2.1,
    (C8_full_load_ends_on_sixth_fire [0, 1, 2, 3, 4, 5] none 0 (by decide)
      (by decide) (by decide)).2.2.2.1,
    (C8_full_load_ends_on_sixth_fire [0, 1, 2, 3, 4, 5] none 0 (by decide)
      (by decide) (by decide)).2.2.2.2⟩

/-- C9 counterexample: `装填 7` — a bulletCount outside `[1,6]` — does not
fail with any error: the parser returns `None`, the command falls through to
the random branch and succeeds, loading the random count (here 3); the AI
path behaves the same with an explicit out-of-range 7.  No `InvalidCount`
reply exists anywhere in the code. -/
theorem C9_counterexample :
    parse_bullet_count "装填 7" = none
      ∧ (load_bullets (GroupState.mk none none 0) "装填 7" false 3 [0, 2, 4]).1
        = LoadReply.loaded 3
      ∧ (load_bullets (GroupState.mk none none 0) "装填 7" false 3
          [0, 2, 4]).2.game
        = some (Game.mk [true, false, true, false, true, false] 0)
      ∧ (ai_start_game (GroupState.mk none none 0) (some 7) false 2 [1, 5]).1
        = AiStartReply.started 2 := by
  decide

/-- C9 amended: a bulletCount outside `[1,6]` is treated as if no count had
been supplied — `_parse_bullet_count` returns `None` and the operation
succeeds with the random count instead (and likewise the AI path and the
legacy tool replace an out-of-range explicit count by the random count);
nothing fails with an `InvalidCount` error. -/
theorem C9_out_of_range_falls_back_to_random (message : String) (c : Int)
    (htok : pyInt ((pySplit (pyStrip message.toList)).getD 1 []) = some c)
    (hlen2 : 2 ≤ (pySplit (pyStrip message.toList)).length)
    (hout : c < 1 ∨ (CHAMBER_COUNT : Int) < c) :
    parse_bullet_count message = none
      ∧ (∀ (s : GroupState) (isAdmin : Bool) (randomCount : Nat)
          (sample : List Nat), s.game = none →
          (load_bullets s message isAdmin randomCount sample).1
              = LoadReply.loaded randomCount
            ∧ (load_bullets s message isAdmin randomCount sample).2.game
              = some (Game.mk (create_chambers randomCount sample) 0))
      ∧ (∀ (s : GroupState) (b : Nat) (isAdmin : Bool) (randomCount : Nat)
          (sample : List Nat), s.game = none →
          (b < 1 ∨ CHAMBER_COUNT < b) →
          (ai_start_game s (some b) isAdmin randomCount sample).1
            = AiStartReply.started randomCount)
      ∧ (∀ (s : GroupState) (groupId b randomCount : Nat)
          (sample : List Nat), s.game = none →
          (b < 1 ∨ CHAMBER_COUNT < b) →
          (startRevolverGameTool_run s (some groupId) (some b) randomCount
            sample).1 = ToolStartReply.started randomCount) := by
  have hparse : parse_bullet_count message = none := by
    have hnotlt : ¬ (pySplit (pyStrip message.toList)).length < 2 := by omega
    have hnotrange : ¬(1 ≤ c ∧ c ≤ (CHAMBER_COUNT : Int)) := by
      simp only [CHAMBER_COUNT] at hout ⊢
      omega
    simp only [parse_bullet_count]
    rw [if_neg hnotlt, htok]
    exact if_neg hnotrange
  refine ⟨hparse, ?_, ?_, ?_⟩
  · intro s isAdmin randomCount sample hgame
    constructor
    · simp [load_bullets, hgame, hparse]
    · simp [load_bullets, hgame, hparse, start_timeout]
  · intro s b isAdmin randomCount sample hgame hb
    have h1 : ¬(1 ≤ b ∧ b ≤ CHAMBER_COUNT) := by
      simp only [CHAMBER_COUNT] at hb ⊢
      omega
    simp [ai_start_game, hgame, h1]
  · intro s groupId b randomCount sample hgame hb
    have h1 : ¬(1 ≤ b ∧ b ≤ CHAMBER_COUNT) := by
      simp only [CHAMBER_COUNT] at hb ⊢
      omega
    simp [startRevolverGameTool_run, hgame, h1]

/-- Witness for the amended C9 at the message `装填 7`. -/
theorem C9_out_of_range_falls_back_to_random_witness :
    pyInt ((pySplit (pyStrip ("装填 7" : String).toList)).getD 1 []) = some 7
      ∧ 2 ≤ (pySplit (pyStrip ("装填 7" : String).toList)).length
      ∧ ((7 : Int) < 1 ∨ (CHAMBER_COUNT : Int) < 7)
      ∧ parse_bullet_count "装填 7" = none
      ∧ ((GroupState.mk none none 0).game = none
        ∧ (load_bullets (GroupState.mk none none 0) "装填 7" true 4
            [0, 1, 2, 3]).1 = LoadReply.loaded 4)
      ∧ ((9 < 1 ∨ CHAMBER_COUNT < 9)
        ∧ (ai_start_game (GroupState.mk none none 0) (some 9) true 1 [2]).1
          = AiStartReply.started 1
        ∧ (startRevolverGameTool_run (GroupState.mk none none 0) (some 11)
            (some 9) 1 [2]).1 = ToolStartReply.started 1) :=
  ⟨by decide, by decide, by decide,
    (C9_out_of_range_falls_back_to_random "装填 7" 7 (by decide) (by decide)
      (by decide)).1,
    ⟨rfl,
      ((C9_out_of_range_falls_back_to_random "装填 7" 7 (by decide) (by decide)
        (by decide)).2.1 (GroupState.mk none none 0) true 4 [0, 1, 2, 3]
        rfl).1⟩,
    ⟨by decide,
      (C9_out_of_range_falls_back_to_random "装填 7" 7 (by decide) (by decide)
        (by decide)).2.2.1 (GroupState.mk none none 0) 9 true 1 [2] rfl
        (by decide),
      (C9_out_of_range_falls_back_to_random "装填 7" 7 (by decide) (by decide)
        (by decide)).2.2.2 (GroupState.mk none none 0) 11 9 1 [2] rfl
        (by decide)⟩⟩

/-- C10: for every event carrying a group id, the legacy
`JoinRevolverGameTool.run` and `CheckRevolverStatusTool.run` always take
their exception branch — the `self.group_games` attribute they access is
defined nowhere in their class hierarchy — and return the failure string,
leaving the group's game registry and chamber state untouched. -/
theorem C10_legacy_tools_always_fail (s : GroupState) (groupId : Nat) :
    legacyToolAttrNames.contains "group_games" = false
      ∧ joinRevolverGameTool_run s (some groupId) = (LegacyToolReply.failure, s)
      ∧ checkRevolverStatusTool_run s (some groupId)
        = (LegacyToolReply.failure, s) := by
  have hc : legacyToolAttrNames.contains "group_games" = false := by decide
  refine ⟨hc, ?_, ?_⟩
  · unfold joinRevolverGameTool_run
    rw [hc]
    simp
  · unfold checkRevolverStatusTool_run
    rw [hc]
    simp

/-- Witness for C10: a group event for group 3 on a state with a running
game — both legacy tools fail and leave it untouched. -/
theorem C10_legacy_tools_always_fail_witness :
    joinRevolverGameTool_run
        (GroupState.mk (some (Game.mk [true, false, true, false, false, true] 0))
          (some 1) 2) (some 3)
      = (LegacyToolReply.failure,
        GroupState.mk (some (Game.mk [true, false, true, false, false, true] 0))
          (some 1) 2)
      ∧ checkRevolverStatusTool_run
        (GroupState.mk (some (Game.mk [true, false, true, false, false, true] 0))
          (some 1) 2) (some 3)
      = (LegacyToolReply.failure,
        GroupState.mk (some (Game.mk [true, false, true, false, false, true] 0))
          (some 1) 2) :=
  ⟨(C10_legacy_tools_always_fail
      (GroupState.mk (some (Game.mk [true, false, true, false, false, true] 0))
        (some 1) 2) 3).2.1,
    (C10_legacy_tools_always_fail
      (GroupState.mk (some (Game.mk [true, false, true, false, false, true] 0))
        (some 1) 2) 3).2.2⟩

end RG2
